import Mathlib

/-!
Verification of the bank-statement extraction pipeline (src/main.py).

The pipeline loads a spreadsheet grid, segments it into transaction tables
(extract_tables), merges and normalizes the rows (clean_combined_df), parses
amount cells (convert_amount), and aggregates per-description summaries
(summarize_and_sort_dinamica).  This file gives a shallow embedding of those
functions over lists of cells and proves or refutes the specified properties.
-/

/-- A spreadsheet cell: text, a (rational-valued) number, or null.
Pandas NaN / None cells are both modelled as null; finite floats are modelled
exactly as rationals. -/
inductive Cell where
  | str (s : String)
  | num (q : ℚ)
  | null
deriving DecidableEq

abbrev Row := List Cell

/-- Python str.lower restricted to the letters that can actually occur in this
repository's data (ASCII plus the accented Spanish letters).  Any character
outside the table is left unchanged; no character ever lower-cases TO an
ASCII capital, which is the only fact the proofs rely on. -/
def asciiLowerTable : List (Char × Char) :=
  [('A', 'a'), ('B', 'b'), ('C', 'c'), ('D', 'd'), ('E', 'e'), ('F', 'f'),
   ('G', 'g'), ('H', 'h'), ('I', 'i'), ('J', 'j'), ('K', 'k'), ('L', 'l'),
   ('M', 'm'), ('N', 'n'), ('O', 'o'), ('P', 'p'), ('Q', 'q'), ('R', 'r'),
   ('S', 's'), ('T', 't'), ('U', 'u'), ('V', 'v'), ('W', 'w'), ('X', 'x'),
   ('Y', 'y'), ('Z', 'z'),
   ('Á', 'á'), ('É', 'é'), ('Í', 'í'), ('Ó', 'ó'), ('Ú', 'ú'), ('Ñ', 'ñ')]

def pyCharLower (c : Char) : Char :=
  match asciiLowerTable.find? (fun p => p.fst == c) with
  | some p => p.snd
  | none => c

/-- Python s.lower() (on the character range above). -/
def pyStrLower (s : String) : String :=
  ⟨s.data.map pyCharLower⟩

/-- Python s.strip(): drop whitespace from both ends. -/
def stripEnds (cs : List Char) : List Char :=
  ((cs.dropWhile Char.isWhitespace).reverse.dropWhile Char.isWhitespace).reverse

def pyStrip (s : String) : String := ⟨stripEnds s.data⟩

/-- Substring containment over character lists (Python's "pat in s"). -/
def charsContain (pat : List Char) : List Char → Bool
  | [] => pat.isEmpty
  | c :: rest => pat.isPrefixOf (c :: rest) || charsContain pat rest

def strContains (s pat : String) : Bool := charsContain pat.data s.data

/-- Left-pad a digit string with zeros up to width k. -/
def padZeros (s : String) (k : Nat) : String :=
  ⟨List.replicate (k - s.length) '0' ++ s.data⟩

/-- Python str(x) for a numeric cell.  Spreadsheet numbers are floats, whose
Python string form is a finite decimal such as "123.45" or "5.0"; we render
the exact decimal expansion when one exists (always, for float-valued cells)
and fall back to the numerator/denominator form otherwise.  No letter occurs
in either form, so sentinel-substring matching is unaffected by the
formatting details. -/
def floatRepr (q : ℚ) : String :=
  match (List.range 41).find? (fun k => (q * (10 : ℚ) ^ k).den == 1) with
  | some k =>
    let n : Int := (q * (10 : ℚ) ^ k).num
    let a : Nat := n.natAbs
    let sign : String := if n < 0 then "-" else ""
    if k = 0 then sign ++ toString a ++ ".0"
    else sign ++ toString (a / 10 ^ k) ++ "." ++ padZeros (toString (a % 10 ^ k)) k
  | none => toString q

/-- Python str(x) of a cell value.  The null case is only reached behind a
pd.notnull guard in the source, where the empty string is substituted. -/
def cellStr : Cell → String
  | Cell.str s => s
  | Cell.num q => floatRepr q
  | Cell.null => ""

def isNullCell : Cell → Bool
  | Cell.null => true
  | _ => false

/-! ## TableSegmenter: extract_tables (src/main.py lines 115-142) -/

/-- Line 131-133: first_cell = str(row.iloc[0]).lower() if notnull else "";
the row opens (or re-opens) a table when it contains "movimientos". -/
def sentinelRow (r : Row) : Bool :=
  strContains (pyStrLower (cellStr (r.getD 0 Cell.null))) "movimientos"

/-- Line 137: pd.isna(row.iloc[5]) — the boundary cell at column index 5 is
null.  Grids are rectangular with at least 6 columns (shorter rows would make
the source raise); getD only fills the default for malformed rows. -/
def nullBoundary (r : Row) : Bool :=
  isNullCell (r.getD 5 Cell.null)

/-- The loop state of extract_tables: table_start (None while searching) and
the tables accumulated so far, kept as half-open index ranges [start, end). -/
structure SegState where
  tableStart : Option Nat
  tables : List (Nat × Nat)
deriving DecidableEq

/-- One iteration of the loop body (lines 130-141): the sentinel test comes
first and fires in every state; otherwise, with a table open, a null boundary
cell closes and emits the segment. -/
def extractStep (st : SegState) (index : Nat) (row : Row) : SegState :=
  if sentinelRow row then
    { st with tableStart := some (index + 1) }
  else
    match st.tableStart with
    | some s =>
      if nullBoundary row then ⟨none, st.tables ++ [(s, index)]⟩
      else st
    | none => st

def extract_tables_from (rows : List Row) (i : Nat) (st : SegState) :
    List (Nat × Nat) :=
  match rows with
  | [] => st.tables
  | r :: rest => extract_tables_from rest (i + 1) (extractStep st i r)

/-- extract_tables: iterate the step over the grid's rows; a table still open
at the end of the grid is never emitted. -/
def extract_tables (raw : List Row) : List (Nat × Nat) :=
  extract_tables_from raw 0 ⟨none, []⟩

/-! ## Spec-side segmentation machines

Two reference machines written from the specification's words, to be compared
with extract_tables.  claimedScan is the machine exactly as the spec states
it: a sentinel row is only recognised while Searching, and while InTable the
only transition is closing on a null boundary cell.  amendedScan additionally
lets a sentinel row re-open a table from any state (discarding the open run),
which is what the source actually does. -/

inductive ScanState where
  | searching
  | inTable (start : Nat)
deriving DecidableEq

/-- The two-state scan exactly as the specification describes it. -/
def claimedScan : List Row → Nat → ScanState → List (Nat × Nat)
  | [], _, _ => []
  | r :: rest, i, ScanState.searching =>
    if sentinelRow r then claimedScan rest (i + 1) (ScanState.inTable (i + 1))
    else claimedScan rest (i + 1) ScanState.searching
  | r :: rest, i, ScanState.inTable s =>
    if nullBoundary r then (s, i) :: claimedScan rest (i + 1) ScanState.searching
    else claimedScan rest (i + 1) (ScanState.inTable s)

def claimedSegments (raw : List Row) : List (Nat × Nat) :=
  claimedScan raw 0 ScanState.searching

/-- The scan amended so that a sentinel row re-opens a table from any state. -/
def amendedScan : List Row → Nat → ScanState → List (Nat × Nat)
  | [], _, _ => []
  | r :: rest, i, st =>
    if sentinelRow r then amendedScan rest (i + 1) (ScanState.inTable (i + 1))
    else
      match st with
      | ScanState.searching => amendedScan rest (i + 1) ScanState.searching
      | ScanState.inTable s =>
        if nullBoundary r then (s, i) :: amendedScan rest (i + 1) ScanState.searching
        else amendedScan rest (i + 1) (ScanState.inTable s)

def amendedSegments (raw : List Row) : List (Nat × Nat) :=
  amendedScan raw 0 ScanState.searching

def stateOf : Option Nat → ScanState
  | none => ScanState.searching
  | some s => ScanState.inTable s

/-! ## AmountParser: convert_amount (src/main.py lines 52-93) -/

def digitVal (c : Char) : Nat := c.toNat - 48

def digitsToNat (ds : List Char) : Nat :=
  ds.foldl (fun n c => n * 10 + digitVal c) 0

/-- Exponent part of a Python float literal: optional sign, then at least one
digit, consuming the whole remainder. -/
def parseExpDigits (cs : List Char) : Option Int :=
  let (sgn, cs2) : Int × List Char :=
    match cs with
    | '+' :: t => (1, t)
    | '-' :: t => (-1, t)
    | _ => (1, cs)
  let ds := cs2.takeWhile Char.isDigit
  let rest := cs2.dropWhile Char.isDigit
  if ds.isEmpty || !rest.isEmpty then none
  else some (sgn * (digitsToNat ds : Int))

/-- Mantissa of a Python float literal: digits with an optional single point,
at least one digit in total; returns the value and the unconsumed rest. -/
def parseMantissa (cs : List Char) : Option (ℚ × List Char) :=
  let ip := cs.takeWhile Char.isDigit
  let rest := cs.dropWhile Char.isDigit
  match rest with
  | '.' :: rest2 =>
    let fp := rest2.takeWhile Char.isDigit
    let rest3 := rest2.dropWhile Char.isDigit
    if ip.isEmpty && fp.isEmpty then none
    else some ((digitsToNat ip : ℚ) + (digitsToNat fp : ℚ) / (10 : ℚ) ^ fp.length, rest3)
  | _ =>
    if ip.isEmpty then none else some ((digitsToNat ip : ℚ), rest)

/-- Python float(s) on finite decimal/scientific literals, as an exact
rational; None models the ValueError caught by the source (line 89-93).
The non-finite literals inf/nan and digit-group underscores, which no claim
exercises and which cannot carry a rational value, are rejected. -/
def pyFloat (cs0 : List Char) : Option ℚ :=
  let cs := stripEnds cs0
  let (sgn, cs2) : ℚ × List Char :=
    match cs with
    | '+' :: t => (1, t)
    | '-' :: t => (-1, t)
    | _ => (1, cs)
  match parseMantissa cs2 with
  | none => none
  | some (m, rest) =>
    match rest with
    | [] => some (sgn * m)
    | 'e' :: t => (parseExpDigits t).map (fun e => sgn * m * (10 : ℚ) ^ e)
    | 'E' :: t => (parseExpDigits t).map (fun e => sgn * m * (10 : ℚ) ^ e)
    | _ => none

/-- Steps 2-6 of convert_amount (lines 71-87): stringify and strip, remove
currency symbols, remove thousands commas, rewrite a trailing minus to a
leading one, unwrap parentheses as negation.  The currency symbols and the
comma are single characters, so the source's sequential str.replace calls
amount to filtering those characters out. -/
def processAmount (x : Cell) : List Char :=
  let s := stripEnds (cellStr x).data
  let s := s.filter (fun c => !(['$', '€', '£'].contains c))
  let s := s.filter (fun c => !(c == ','))
  let s := if s.getLast? == some '-' then '-' :: stripEnds s.dropLast else s
  let s :=
    match s with
    | '(' :: _ => if s.getLast? == some ')' then '-' :: stripEnds (s.drop 1).dropLast else s
    | _ => s
  s

/-- convert_amount (lines 52-93): null in, null out; otherwise preprocess and
attempt the float parse, returning null on failure. -/
def convert_amount (x : Cell) : Option ℚ :=
  if isNullCell x then none
  else pyFloat (processAmount x)

/-! ## RowNormalizer: clean_combined_df (src/main.py lines 145-177) -/

/-- A pandas DataFrame: column labels plus data rows (rectangular). -/
structure DataTable where
  columns : List Cell
  rows : List Row
deriving DecidableEq

/-- The .str.lower() accessor used on line 161: string labels are
lower-cased, any non-string element becomes NaN. -/
def lowerCell : Cell → Cell
  | Cell.str s => Cell.str (pyStrLower s)
  | _ => Cell.null

/-- The .str.strip() accessor used on line 222: string labels are stripped,
any non-string element becomes NaN. -/
def stripCellLabel : Cell → Cell
  | Cell.str s => Cell.str (pyStrip s)
  | _ => Cell.null

/-- Line 165: .str.contains("FECHA", case=False, na=False) on the first
column — true only for a string cell containing the text case-insensitively
(na=False maps non-string and null cells to False). -/
def firstColMatchesFecha (r : Row) : Bool :=
  match r.getD 0 Cell.null with
  | Cell.str s => strContains (pyStrLower s) "fecha"
  | _ => false

/-- Result of convert_amount written back into a cell: a float, or NaN for a
failed conversion. -/
def cellOfOpt : Option ℚ → Cell
  | some q => Cell.num q
  | none => Cell.null

/-- Apply convert_amount to the cell of a row at column index j
(lines 173/175). -/
def convertRowAt (j : Nat) (r : Row) : Row :=
  r.set j (cellOfOpt (convert_amount (r.getD j Cell.null)))

/-- Apply convert_amount down a whole column of the table. -/
def applyConvertAt (j : Nat) (t : DataTable) : DataTable :=
  ⟨t.columns, t.rows.map (convertRowAt j)⟩

/-- clean_combined_df (lines 159-177): promote the lower-cased first row to
the column header and drop it; keep the first data row unconditionally and
drop every later data row whose first column contains "FECHA"
case-insensitively; then convert the amounts column — by name if a column is
literally called "Valor", else positionally at index 4.  An empty input frame
makes the source raise (iloc[0] IndexError), modelled as none. -/
def clean_combined_df (t : DataTable) : Option DataTable :=
  match t.rows with
  | [] => none
  | r0 :: rest =>
    if Cell.str "Valor" ∈ r0.map lowerCell then
      some (applyConvertAt ((r0.map lowerCell).findIdx (fun c => c == Cell.str "Valor"))
        ⟨r0.map lowerCell,
         rest.take 1 ++ (rest.drop 1).filter (fun r => !(firstColMatchesFecha r))⟩)
    else
      some (applyConvertAt 4
        ⟨r0.map lowerCell,
         rest.take 1 ++ (rest.drop 1).filter (fun r => !(firstColMatchesFecha r))⟩)

/-- The state of the ARGUMENT of clean_combined_df after the call returns:
line 161 assigns the lower-cased first row to the caller's frame's columns in
place; the subsequent drop/reset/concat build fresh frames, so the caller's
rows are untouched.  On an empty frame line 161 raises before assigning. -/
def clean_combined_df_argEffect (t : DataTable) : DataTable :=
  match t.rows with
  | [] => t
  | r0 :: _ => ⟨r0.map lowerCell, t.rows⟩

/-! ## Aggregator: summarize_and_sort_dinamica (src/main.py lines 207-230) -/

structure SummaryRow where
  descripcion : String
  valor_sum : ℚ
  recurrencia : Nat
deriving DecidableEq

instance : DecidableRel (fun a b : SummaryRow => b.valor_sum ≤ a.valor_sum) :=
  fun a b => inferInstanceAs (Decidable (b.valor_sum ≤ a.valor_sum))

/-- The group keys produced by groupby('descripción'): the distinct
descriptions, in sorted order (pandas groupby defaults to sort=True).  Rows
whose description is null are dropped by groupby beforehand, so the
normalized rows carry plain string keys. -/
def groupKeys (rows : List (String × Option ℚ)) : List String :=
  List.insertionSort (fun a b : String => a ≤ b) (rows.map Prod.fst).dedup

/-- One aggregated row (lines 224-227): valor_sum is the pandas 'sum' of the
group's amounts, which skips nulls (an all-null group sums to 0); recurrencia
is the pandas 'size', the full row count of the group. -/
def summaryOf (rows : List (String × Option ℚ)) (k : String) : SummaryRow :=
  ⟨k, ((rows.filter (fun r => r.fst == k)).filterMap Prod.snd).sum,
   (rows.filter (fun r => r.fst == k)).length⟩

/-- summarize_and_sort_dinamica (lines 207-230) on the normalized
(description, amount) rows: group, aggregate, and sort descending by
valor_sum.  The source calls sort_values with its default kind=quicksort,
whose ordering of EQUAL keys is implementation-defined; the model uses a
stable sort, which realises one admissible tie order. -/
def summarize_and_sort_dinamica (rows : List (String × Option ℚ)) :
    List SummaryRow :=
  List.insertionSort (fun a b : SummaryRow => b.valor_sum ≤ a.valor_sum)
    ((groupKeys rows).map (summaryOf rows))

/-- The state of the ARGUMENT of summarize_and_sort_dinamica after the call:
line 222 assigns the stripped labels to the caller's frame's columns in
place; the groupby/agg/sort build fresh frames. -/
def summarize_argEffect (t : DataTable) : DataTable :=
  ⟨t.columns.map stripCellLabel, t.rows⟩

/-! ## main (src/main.py lines 233-258) -/

/-- The externally visible actions of main, in order. -/
inductive Effect where
  | warnNoTables
  | writeCleanFile
  | writeDinamicaFile
  | callAdvisor
  | renderPdf
deriving DecidableEq

/-- The rows of one extracted segment: raw_df.iloc[start:stop] (line 139). -/
def segmentRows (rows : List Row) (seg : Nat × Nat) : List Row :=
  (rows.drop seg.1).take (seg.2 - seg.1)

/-- pd.concat(tables, ignore_index=True) (line 244): row-wise concatenation
of all segments, keeping the source frame's column labels. -/
def combinedOf (raw : DataTable) : DataTable :=
  ⟨raw.columns, ((extract_tables raw.rows).map (segmentRows raw.rows)).flatten⟩

/-- The group key a cell contributes: groupby drops null keys (dropna=True);
numeric keys are grouped by value and carried here via their rendering,
string keys as themselves. -/
def cellKeyStr : Cell → Option String
  | Cell.str s => some s
  | Cell.num q => some (floatRepr q)
  | Cell.null => none

/-- An amount cell after the conversion pass: a float or null. -/
def cellAmount : Cell → Option ℚ
  | Cell.num q => some q
  | _ => none

/-- Lines 218-229 applied to the cleaned frame: strip the column labels, look
up the 'descripción' and 'valor' columns (a missing column is a fatal
KeyError, modelled as none), and aggregate. -/
def summarizeTable (t : DataTable) : Option (List SummaryRow) :=
  let cols := t.columns.map stripCellLabel
  if Cell.str "descripción" ∈ cols ∧ Cell.str "valor" ∈ cols then
    some (summarize_and_sort_dinamica (t.rows.filterMap (fun r =>
      match cellKeyStr (r.getD (cols.findIdx (fun c => c == Cell.str "descripción")) Cell.null) with
      | some d => some (d, cellAmount (r.getD (cols.findIdx (fun c => c == Cell.str "valor")) Cell.null))
      | none => none)))
  else none

/-- The trace of main (lines 233-258): load, extract; with no tables, warn
and return at once; otherwise clean and summarize (a raised error there
propagates with no further effect), then write both output files, call the
AI advisor, and render the PDF. -/
def main_trace (raw : DataTable) : List Effect :=
  if extract_tables raw.rows = [] then [Effect.warnNoTables]
  else
    match clean_combined_df (combinedOf raw) with
    | none => []
    | some cleaned =>
      match summarizeTable cleaned with
      | none => []
      | some _ =>
        [Effect.writeCleanFile, Effect.writeDinamicaFile,
         Effect.callAdvisor, Effect.renderPdf]

/-! ## Helper lemmas -/

theorem extract_tables_from_eq_amended (rows : List Row) :
    ∀ (i : Nat) (ts : Option Nat) (acc : List (Nat × Nat)),
      extract_tables_from rows i ⟨ts, acc⟩ = acc ++ amendedScan rows i (stateOf ts) := by
  induction rows with
  | nil => intro i ts acc; simp [extract_tables_from, amendedScan]
  | cons r rest ih =>
    intro i ts acc
    show extract_tables_from rest (i + 1) (extractStep ⟨ts, acc⟩ i r) = _
    by_cases hs : sentinelRow r = true
    · have hstep : extractStep ⟨ts, acc⟩ i r = ⟨some (i + 1), acc⟩ := by
        simp [extractStep, hs]
      rw [hstep, ih]
      cases ts <;> simp [amendedScan, hs, stateOf]
    · cases ts with
      | none =>
        have hstep : extractStep ⟨none, acc⟩ i r = ⟨none, acc⟩ := by
          simp [extractStep, hs]
        rw [hstep, ih]
        simp [amendedScan, hs, stateOf]
      | some s =>
        by_cases hb : nullBoundary r = true
        · have hstep : extractStep ⟨some s, acc⟩ i r = ⟨none, acc ++ [(s, i)]⟩ := by
            simp [extractStep, hs, hb]
          rw [hstep, ih]
          simp [amendedScan, hs, hb, stateOf]
        · have hstep : extractStep ⟨some s, acc⟩ i r = ⟨some s, acc⟩ := by
            simp [extractStep, hs, hb]
          rw [hstep, ih]
          simp [amendedScan, hs, hb, stateOf]

/-! ## C1 — segmentation ranges -/

/-- The spec's worked example: a sentinel row at index 2, data rows at
indices 3..7, and a null boundary cell at index 8. -/
def c1exampleGrid : List Row :=
  [[Cell.str "saldo", Cell.null, Cell.null, Cell.null, Cell.null, Cell.str "v"],
   [Cell.str "otro", Cell.null, Cell.null, Cell.null, Cell.null, Cell.str "v"],
   [Cell.str "Detalle de Movimientos", Cell.null, Cell.null, Cell.null, Cell.null, Cell.str "v"],
   [Cell.str "a", Cell.null, Cell.null, Cell.null, Cell.null, Cell.num 1],
   [Cell.str "b", Cell.null, Cell.null, Cell.null, Cell.null, Cell.num 2],
   [Cell.str "c", Cell.null, Cell.null, Cell.null, Cell.null, Cell.num 3],
   [Cell.str "d", Cell.null, Cell.null, Cell.null, Cell.null, Cell.num 4],
   [Cell.str "e", Cell.null, Cell.null, Cell.null, Cell.null, Cell.num 5],
   [Cell.str "fin", Cell.null, Cell.null, Cell.null, Cell.null, Cell.null]]

/-- A grid with a second sentinel row inside an open table: row 0 opens a
table at start 1, row 2 is a sentinel with a non-null boundary cell, row 3
has a null boundary cell. -/
def c1nestedGrid : List Row :=
  [[Cell.str "movimientos", Cell.null, Cell.null, Cell.null, Cell.null, Cell.str "v"],
   [Cell.str "a", Cell.null, Cell.null, Cell.null, Cell.null, Cell.str "v"],
   [Cell.str "movimientos", Cell.null, Cell.null, Cell.null, Cell.null, Cell.str "v"],
   [Cell.str "b", Cell.null, Cell.null, Cell.null, Cell.null, Cell.null]]

/-- C1 counterexample: on c1nestedGrid the claim's characterisation (a
sentinel row only opens a segment while not inside a table, closed at the
first null boundary row after it) demands the single segment [1, 3), but
extract_tables returns [3, 3): the inner sentinel row re-opened the table
and discarded the run that began at row 1. -/
theorem C1_counterexample :
    extract_tables c1nestedGrid = [(3, 3)] ∧
    claimedSegments c1nestedGrid = [(1, 3)] := by
  constructor <;> decide

/-- C1 amended: extract_tables returns exactly the segments of the two-state
scan in which ANY row whose first cell contains "movimientos"
(case-insensitively) sets the recorded start to its index + 1 — even while a
table is open, discarding the open run — and, while a table is open, a
non-sentinel row whose cell at column index 5 is null closes and emits
[start, i).  A grid with no sentinel row yields the empty sequence, the
example grid yields exactly [3, 8), and a run that reaches the end of the
grid without a null boundary row is never emitted (the scan returns only the
closed segments). -/
theorem C1_amended_segmenter :
    (∀ raw : List Row, extract_tables raw = amendedSegments raw) ∧
    extract_tables c1exampleGrid = [(3, 8)] ∧
    extract_tables [[Cell.str "saldo", Cell.null, Cell.null, Cell.null, Cell.null, Cell.str "v"]] = [] := by
  refine ⟨fun raw => ?_, by decide, by decide⟩
  have h := extract_tables_from_eq_amended raw 0 none []
  simpa [extract_tables, amendedSegments, stateOf] using h

/-! ## C5 — transitions while a table is open -/

/-- C5 counterexample: with a table open (table_start = 1), scanning a
sentinel row whose boundary cell is non-null does NOT leave the recorded
segment start unchanged — the source's sentinel branch fires first and
resets the start to index + 1. -/
theorem C5_counterexample :
    (extractStep ⟨some 1, []⟩ 2
      [Cell.str "movimientos", Cell.null, Cell.null, Cell.null, Cell.null, Cell.str "v"]).tableStart
      ≠ some 1 := by
  decide

/-- C5 amended: while a table is open, a sentinel row resets the recorded
start to its index + 1 without emitting (discarding the open run); a
non-sentinel row with a null boundary cell at column index 5 closes and
emits the segment; every other row leaves the state and the recorded start
unchanged. -/
theorem C5_amended_step (s : Nat) (ts : List (Nat × Nat)) (i : Nat) (r : Row) :
    (sentinelRow r = true →
      extractStep ⟨some s, ts⟩ i r = ⟨some (i + 1), ts⟩) ∧
    (sentinelRow r = false → nullBoundary r = true →
      extractStep ⟨some s, ts⟩ i r = ⟨none, ts ++ [(s, i)]⟩) ∧
    (sentinelRow r = false → nullBoundary r = false →
      extractStep ⟨some s, ts⟩ i r = ⟨some s, ts⟩) := by
  refine ⟨fun h1 => by simp [extractStep, h1],
    fun h1 h2 => by simp [extractStep, h1, h2],
    fun h1 h2 => by simp [extractStep, h1, h2]⟩

theorem C5_amended_step_witness :
    sentinelRow [Cell.str "movimientos", Cell.null, Cell.null, Cell.null, Cell.null, Cell.str "v"] = true ∧
    extractStep ⟨some 1, []⟩ 2
      [Cell.str "movimientos", Cell.null, Cell.null, Cell.null, Cell.null, Cell.str "v"]
      = ⟨some 3, []⟩ :=
  ⟨by decide,
   (C5_amended_step 1 [] 2
      [Cell.str "movimientos", Cell.null, Cell.null, Cell.null, Cell.null, Cell.str "v"]).1
     (by decide)⟩

/-! ## C2 — AmountParser examples -/

/-- C2: the five specified input/output pairs of convert_amount, reached by
the ordered preprocessing steps (null check, stringify and strip, currency
symbols, commas, trailing minus, parentheses, float parse). -/
theorem C2_amount_examples :
    convert_amount (Cell.str "$1,234.50") = some (1234.5 : ℚ) ∧
    convert_amount (Cell.str "123.45-") = some (-123.45 : ℚ) ∧
    convert_amount (Cell.str "(50)") = some (-50 : ℚ) ∧
    convert_amount (Cell.str "abc") = none ∧
    convert_amount Cell.null = none := by
  refine ⟨?_, ?_, ?_, by decide, by decide⟩
  · show pyFloat (processAmount (Cell.str "$1,234.50")) = some (1234.5 : ℚ)
    rw [show processAmount (Cell.str "$1,234.50") = ['1', '2', '3', '4', '.', '5', '0'] from by decide]
    show some ((1 : ℚ) * ((digitsToNat ['1', '2', '3', '4'] : ℚ) +
      (digitsToNat ['5', '0'] : ℚ) / (10 : ℚ) ^ (['5', '0'] : List Char).length)) = _
    rw [show digitsToNat ['1', '2', '3', '4'] = 1234 from by decide,
        show digitsToNat ['5', '0'] = 50 from by decide]
    norm_num
  · show pyFloat (processAmount (Cell.str "123.45-")) = some (-123.45 : ℚ)
    rw [show processAmount (Cell.str "123.45-") = ['-', '1', '2', '3', '.', '4', '5'] from by decide]
    show some ((-1 : ℚ) * ((digitsToNat ['1', '2', '3'] : ℚ) +
      (digitsToNat ['4', '5'] : ℚ) / (10 : ℚ) ^ (['4', '5'] : List Char).length)) = _
    rw [show digitsToNat ['1', '2', '3'] = 123 from by decide,
        show digitsToNat ['4', '5'] = 45 from by decide]
    norm_num
  · show pyFloat (processAmount (Cell.str "(50)")) = some (-50 : ℚ)
    rw [show processAmount (Cell.str "(50)") = ['-', '5', '0'] from by decide]
    show some ((-1 : ℚ) * (digitsToNat ['5', '0'] : ℚ)) = _
    rw [show digitsToNat ['5', '0'] = 50 from by decide]
    norm_num

/-! ## C7 — AmountParser totality -/

/-- C7: convert_amount is total — for every cell value it yields either a
float or null — and it yields null exactly on a null input or when the
processed string fails the float parse (the source's caught exception); the
failure never propagates.  Diagnostic logging has no observable effect on
the result and is not modelled. -/
theorem C7_parser_total (x : Cell) :
    (convert_amount x = none ∨ ∃ q : ℚ, convert_amount x = some q) ∧
    (convert_amount x = none ↔
      (x = Cell.null ∨ pyFloat (processAmount x) = none)) := by
  constructor
  · cases h : convert_amount x with
    | none => exact Or.inl rfl
    | some q => exact Or.inr ⟨q, rfl⟩
  · cases x with
    | null => simp [convert_amount, isNullCell]
    | str s => simp [convert_amount, isNullCell]
    | num q => simp [convert_amount, isNullCell]

/-! ## C4 — aggregation invariants -/

theorem summaryOf_descripcion (rows : List (String × Option ℚ)) (k : String) :
    (summaryOf rows k).descripcion = k := rfl

theorem summarize_map_desc_perm (rows : List (String × Option ℚ)) :
    ((summarize_and_sort_dinamica rows).map SummaryRow.descripcion).Perm
      (rows.map Prod.fst).dedup := by
  have hcomp : SummaryRow.descripcion ∘ summaryOf rows = id :=
    funext (fun k => rfl)
  have p1 := (List.perm_insertionSort
    (fun a b : SummaryRow => b.valor_sum ≤ a.valor_sum)
    ((groupKeys rows).map (summaryOf rows))).map SummaryRow.descripcion
  rw [List.map_map, hcomp, List.map_id] at p1
  have p2 : (groupKeys rows).Perm (rows.map Prod.fst).dedup :=
    List.perm_insertionSort _ _
  exact p1.trans p2

def c4rows : List (String × Option ℚ) :=
  [("rent", some (-100 : ℚ)), ("rent", some (-100 : ℚ)), ("rent", some (-100 : ℚ))]

/-- C4: the aggregator emits exactly one summary row per distinct
description; each row's valor_sum is the sum of the non-null amounts of the
input rows with that description and its recurrencia counts all such rows,
nulls included; grouping three ("rent", -100) rows yields the single row
("rent", -300, 3). -/
theorem C4_aggregation :
    (∀ rows : List (String × Option ℚ),
      ((summarize_and_sort_dinamica rows).map SummaryRow.descripcion).Nodup) ∧
    (∀ rows : List (String × Option ℚ), ∀ sr : SummaryRow,
      sr ∈ summarize_and_sort_dinamica rows →
        sr.valor_sum =
          ((rows.filter (fun r => r.fst == sr.descripcion)).filterMap Prod.snd).sum ∧
        sr.recurrencia = (rows.filter (fun r => r.fst == sr.descripcion)).length) ∧
    (∀ rows : List (String × Option ℚ), ∀ d : String,
      d ∈ rows.map Prod.fst ↔
        d ∈ (summarize_and_sort_dinamica rows).map SummaryRow.descripcion) ∧
    summarize_and_sort_dinamica c4rows = [⟨"rent", -300, 3⟩] := by
  refine ⟨?_, ?_, ?_, ?_⟩
  · intro rows
    exact (summarize_map_desc_perm rows).symm.nodup (List.nodup_dedup _)
  · intro rows sr hsr
    have hmem : sr ∈ (groupKeys rows).map (summaryOf rows) :=
      (List.perm_insertionSort _ _).mem_iff.mp hsr
    obtain ⟨k, _, hek⟩ := List.mem_map.mp hmem
    cases hek
    exact ⟨rfl, rfl⟩
  · intro rows d
    rw [(summarize_map_desc_perm rows).mem_iff, List.mem_dedup]
  · show List.insertionSort _ _ = _
    rw [show groupKeys c4rows = ["rent"] from by decide]
    show [summaryOf c4rows "rent"] = [(⟨"rent", -300, 3⟩ : SummaryRow)]
    have h1 : (summaryOf c4rows "rent").valor_sum = -300 := by
      show ((-100 : ℚ) + ((-100 : ℚ) + ((-100 : ℚ) + 0))) = -300
      norm_num
    have h2 : summaryOf c4rows "rent" =
        (⟨"rent", -300, 3⟩ : SummaryRow) := by
      have := h1
      unfold summaryOf at this ⊢
      rw [show ((c4rows.filter (fun r => r.fst == "rent")).filterMap Prod.snd).sum = (-300 : ℚ) from this]
      rfl
    rw [h2]

theorem C4_aggregation_witness :
    (⟨"rent", -300, 3⟩ : SummaryRow) ∈ summarize_and_sort_dinamica c4rows ∧
    ((⟨"rent", -300, 3⟩ : SummaryRow).valor_sum =
      ((c4rows.filter (fun r => r.fst == (⟨"rent", -300, 3⟩ : SummaryRow).descripcion)).filterMap
        Prod.snd).sum ∧
     (⟨"rent", -300, 3⟩ : SummaryRow).recurrencia =
      (c4rows.filter (fun r => r.fst == (⟨"rent", -300, 3⟩ : SummaryRow).descripcion)).length) :=
  ⟨C4_aggregation.2.2.2 ▸ List.mem_singleton.mpr rfl,
   C4_aggregation.2.1 c4rows ⟨"rent", -300, 3⟩
     (C4_aggregation.2.2.2 ▸ List.mem_singleton.mpr rfl)⟩

/-! ## Normalizer helper lemmas -/

theorem pyCharLower_ne_V (c : Char) : pyCharLower c ≠ 'V' := by
  have hall : ∀ q ∈ asciiLowerTable, q.snd ≠ 'V' := by decide
  unfold pyCharLower
  cases hf : asciiLowerTable.find? (fun p => p.fst == c) with
  | none =>
    show c ≠ 'V'
    intro hc
    subst hc
    rw [show asciiLowerTable.find? (fun p => p.fst == 'V') = some ('V', 'v') from by decide]
      at hf
    exact Option.noConfusion hf
  | some p =>
    exact hall p (List.mem_of_find?_eq_some hf)

theorem pyStrLower_ne_Valor (s : String) : pyStrLower s ≠ "Valor" := by
  intro h
  have hd : s.data.map pyCharLower = "Valor".data := congrArg String.data h
  have hV : "Valor".data = ['V', 'a', 'l', 'o', 'r'] := rfl
  rw [hV] at hd
  cases hsd : s.data with
  | nil => rw [hsd] at hd; exact List.noConfusion hd
  | cons c cs =>
    rw [hsd] at hd
    simp only [List.map_cons] at hd
    exact pyCharLower_ne_V c (List.cons.inj hd).1

theorem lowerCell_ne_valorLabel (c : Cell) : lowerCell c ≠ Cell.str "Valor" := by
  cases c with
  | str s =>
    intro h
    exact pyStrLower_ne_Valor s (Cell.str.inj h)
  | num q => exact fun h => Cell.noConfusion h
  | null => exact fun h => Cell.noConfusion h

theorem valor_not_mem_lowered (r0 : Row) :
    Cell.str "Valor" ∉ r0.map lowerCell := by
  intro h
  obtain ⟨c, _, he⟩ := List.mem_map.mp h
  exact lowerCell_ne_valorLabel c he

theorem clean_combined_df_cons (t : DataTable) (r0 : Row) (rest : List Row)
    (h : t.rows = r0 :: rest) :
    clean_combined_df t = some (applyConvertAt 4
      ⟨r0.map lowerCell,
       rest.take 1 ++ (rest.drop 1).filter (fun r => !(firstColMatchesFecha r))⟩) := by
  unfold clean_combined_df
  rw [h]
  exact if_neg (valor_not_mem_lowered r0)

/-! ## C6 — header promotion and FECHA filtering -/

/-- A CombinedTable holding only the header row, with no data rows below it. -/
def c6headerOnly : DataTable :=
  ⟨[Cell.str "A", Cell.str "B", Cell.str "C", Cell.str "D", Cell.str "E", Cell.str "F"],
   [[Cell.str "FECHA", Cell.str "DESCRIPCIÓN", Cell.str "SUCURSAL", Cell.str "DCTO.",
     Cell.str "VALOR", Cell.str "SALDO"]]⟩

/-- C6 counterexample: on a CombinedTable whose only row is the header, the
normalizer succeeds but returns a table with NO data rows, so "at least one
data row always survives" fails — there was no remaining data row to keep. -/
theorem C6_counterexample :
    clean_combined_df c6headerOnly =
      some ⟨[Cell.str "fecha", Cell.str "descripción", Cell.str "sucursal", Cell.str "dcto.",
             Cell.str "valor", Cell.str "saldo"], []⟩ ∧
    (clean_combined_df c6headerOnly).map DataTable.rows = some [] := by
  constructor <;> decide

/-- C6 amended: for every CombinedTable with at least one data row below the
header row, the normalizer promotes the lower-cased first row to the column
header and removes it, keeps the first data row unconditionally (even if it
matches), drops every later data row whose first column contains "FECHA"
case-insensitively, and converts the amount column positionally — so at
least one data row survives.  (A header-only table yields zero data rows,
and an empty table is an error.) -/
theorem C6_normalizer (t : DataTable) (r0 d1 : Row) (rest : List Row)
    (h : t.rows = r0 :: d1 :: rest) :
    clean_combined_df t = some (applyConvertAt 4
      ⟨r0.map lowerCell, d1 :: rest.filter (fun r => !(firstColMatchesFecha r))⟩) ∧
    (applyConvertAt 4
      ⟨r0.map lowerCell, d1 :: rest.filter (fun r => !(firstColMatchesFecha r))⟩).rows ≠ [] := by
  constructor
  · exact clean_combined_df_cons t r0 (d1 :: rest) h
  · show convertRowAt 4 d1 :: _ ≠ []
    exact List.cons_ne_nil _ _

def c6hdr : Row :=
  [Cell.str "FECHA", Cell.str "DESCRIPCIÓN", Cell.str "SUCURSAL", Cell.str "DCTO.",
   Cell.str "VALOR", Cell.str "SALDO"]

/-- A repeated header line appearing as the first data row: it matches the
FECHA filter but must survive. -/
def c6rep : Row :=
  [Cell.str "FECHA", Cell.str "DESCRIPCIÓN", Cell.str "SUCURSAL", Cell.str "DCTO.",
   Cell.str "VALOR", Cell.str "SALDO"]

def c6twoRows : DataTable := ⟨[Cell.str "A", Cell.str "B", Cell.str "C", Cell.str "D",
  Cell.str "E", Cell.str "F"], [c6hdr, c6rep]⟩

theorem C6_normalizer_witness :
    c6twoRows.rows = c6hdr :: c6rep :: [] ∧
    (clean_combined_df c6twoRows = some (applyConvertAt 4
      ⟨c6hdr.map lowerCell,
       c6rep :: ([] : List Row).filter (fun r => !(firstColMatchesFecha r))⟩) ∧
     (applyConvertAt 4
      ⟨c6hdr.map lowerCell,
       c6rep :: ([] : List Row).filter (fun r => !(firstColMatchesFecha r))⟩).rows ≠ []) :=
  ⟨rfl, C6_normalizer c6twoRows c6hdr c6rep [] rfl⟩

/-! ## C10 — the name-based "Valor" path is unreachable -/

/-- C10: after header assignment every column label is a lower-cased string
(or null), so the case-sensitive membership test for a column named "Valor"
is always false and clean_combined_df always takes the positional path,
applying convert_amount to the column at index 4. -/
theorem C10_positional_path (t : DataTable) (r0 : Row) (rest : List Row)
    (h : t.rows = r0 :: rest) :
    Cell.str "Valor" ∉ r0.map lowerCell ∧
    clean_combined_df t = some (applyConvertAt 4
      ⟨r0.map lowerCell,
       rest.take 1 ++ (rest.drop 1).filter (fun r => !(firstColMatchesFecha r))⟩) :=
  ⟨valor_not_mem_lowered r0, clean_combined_df_cons t r0 rest h⟩

def c10table : DataTable :=
  ⟨[Cell.str "A", Cell.str "B", Cell.str "C", Cell.str "D", Cell.str "E", Cell.str "F"],
   [[Cell.str "FECHA", Cell.str "DESCRIPCIÓN", Cell.str "SUCURSAL", Cell.str "DCTO.",
     Cell.str "Valor", Cell.str "SALDO"],
    [Cell.str "2025/01/01", Cell.str "PAGO", Cell.str "SUC", Cell.str "1",
     Cell.str "123.45-", Cell.str "0"]]⟩

def c10hdr : Row :=
  [Cell.str "FECHA", Cell.str "DESCRIPCIÓN", Cell.str "SUCURSAL", Cell.str "DCTO.",
   Cell.str "Valor", Cell.str "SALDO"]

def c10data : Row :=
  [Cell.str "2025/01/01", Cell.str "PAGO", Cell.str "SUC", Cell.str "1",
   Cell.str "123.45-", Cell.str "0"]

theorem C10_positional_path_witness :
    c10table.rows = c10hdr :: [c10data] ∧
    (Cell.str "Valor" ∉ c10hdr.map lowerCell ∧
     clean_combined_df c10table = some (applyConvertAt 4
      ⟨c10hdr.map lowerCell,
       [c10data].take 1 ++ ([c10data].drop 1).filter (fun r => !(firstColMatchesFecha r))⟩)) :=
  ⟨rfl, C10_positional_path c10table c10hdr [c10data] rfl⟩

/-! ## C8 — in-place mutation of earlier tables -/

/-- C8 counterexample: clean_combined_df is NOT a pure transformation of its
argument — after the call, the CombinedTable passed in has had its column
labels overwritten in place (line 161 of the source) with the lower-cased
first row, so the earlier table is changed by the later stage. -/
theorem C8_counterexample :
    clean_combined_df_argEffect
        ⟨[Cell.str "A", Cell.str "B", Cell.str "C", Cell.str "D", Cell.str "E", Cell.str "F"],
         [[Cell.str "FECHA", Cell.str "DESCRIPCIÓN", Cell.str "SUCURSAL", Cell.str "DCTO.",
           Cell.str "VALOR", Cell.str "SALDO"]]⟩
      ≠ ⟨[Cell.str "A", Cell.str "B", Cell.str "C", Cell.str "D", Cell.str "E", Cell.str "F"],
         [[Cell.str "FECHA", Cell.str "DESCRIPCIÓN", Cell.str "SUCURSAL", Cell.str "DCTO.",
           Cell.str "VALOR", Cell.str "SALDO"]]⟩ := by
  decide

/-- C8 amended: the only in-place mutations are to column labels —
clean_combined_df overwrites its argument's column labels with the
lower-cased first row (line 161), and summarize_and_sort_dinamica overwrites
its argument's column labels with their whitespace-stripped forms
(line 222); the cells and row order of the argument tables are left
unchanged by both calls. -/
theorem C8_mutation (t : DataTable) (r0 : Row) (rest : List Row)
    (h : t.rows = r0 :: rest) :
    clean_combined_df_argEffect t = ⟨r0.map lowerCell, t.rows⟩ ∧
    (clean_combined_df_argEffect t).rows = t.rows ∧
    (∀ u : DataTable,
      summarize_argEffect u = ⟨u.columns.map stripCellLabel, u.rows⟩ ∧
      (summarize_argEffect u).rows = u.rows) := by
  refine ⟨?_, ?_, fun u => ⟨rfl, rfl⟩⟩
  · unfold clean_combined_df_argEffect
    rw [h]
  · unfold clean_combined_df_argEffect
    rw [h]

def c8table : DataTable :=
  ⟨[Cell.str "A", Cell.str "B", Cell.str "C", Cell.str "D", Cell.str "E", Cell.str "F"],
   [[Cell.str "FECHA", Cell.str "DESCRIPCIÓN", Cell.str "SUCURSAL", Cell.str "DCTO.",
     Cell.str "VALOR", Cell.str "SALDO"]]⟩

def c8row : Row :=
  [Cell.str "FECHA", Cell.str "DESCRIPCIÓN", Cell.str "SUCURSAL", Cell.str "DCTO.",
   Cell.str "VALOR", Cell.str "SALDO"]

theorem C8_mutation_witness :
    c8table.rows = c8row :: [] ∧
    (clean_combined_df_argEffect c8table = ⟨c8row.map lowerCell, c8table.rows⟩ ∧
     (clean_combined_df_argEffect c8table).rows = c8table.rows ∧
     (∀ u : DataTable,
       summarize_argEffect u = ⟨u.columns.map stripCellLabel, u.rows⟩ ∧
       (summarize_argEffect u).rows = u.rows)) :=
  ⟨rfl, C8_mutation c8table c8row [] rfl⟩

/-! ## C9 — empty segmentation short-circuits the pipeline -/

/-- C9: when extract_tables finds no tables, main logs the warning and
returns at once — the trace is exactly the warning, so neither output file
is written and neither the AI advisor nor the PDF renderer is invoked. -/
theorem C9_no_tables (raw : DataTable) (h : extract_tables raw.rows = []) :
    main_trace raw = [Effect.warnNoTables] ∧
    Effect.writeCleanFile ∉ main_trace raw ∧
    Effect.writeDinamicaFile ∉ main_trace raw ∧
    Effect.callAdvisor ∉ main_trace raw ∧
    Effect.renderPdf ∉ main_trace raw := by
  have hm : main_trace raw = [Effect.warnNoTables] := by
    unfold main_trace
    rw [if_pos h]
  refine ⟨hm, ?_, ?_, ?_, ?_⟩ <;> rw [hm] <;> decide

def c9grid : DataTable :=
  ⟨[Cell.str "A", Cell.str "B", Cell.str "C", Cell.str "D", Cell.str "E", Cell.str "F"],
   [[Cell.str "saldo", Cell.null, Cell.null, Cell.null, Cell.null, Cell.str "v"],
    [Cell.str "otro", Cell.null, Cell.null, Cell.null, Cell.null, Cell.str "v"]]⟩

theorem C9_no_tables_witness :
    extract_tables c9grid.rows = [] ∧
    (main_trace c9grid = [Effect.warnNoTables] ∧
     Effect.writeCleanFile ∉ main_trace c9grid ∧
     Effect.writeDinamicaFile ∉ main_trace c9grid ∧
     Effect.callAdvisor ∉ main_trace c9grid ∧
     Effect.renderPdf ∉ main_trace c9grid) :=
  ⟨by decide, C9_no_tables c9grid (by decide)⟩

theorem C7_parser_total_witness :
    (convert_amount (Cell.str "abc") = none ∨
      ∃ q : ℚ, convert_amount (Cell.str "abc") = some q) ∧
    (convert_amount (Cell.str "abc") = none ↔
      (Cell.str "abc" = Cell.null ∨ pyFloat (processAmount (Cell.str "abc")) = none)) :=
  C7_parser_total (Cell.str "abc")

theorem C1_amended_segmenter_witness :
    extract_tables c1exampleGrid = amendedSegments c1exampleGrid :=
  C1_amended_segmenter.1 c1exampleGrid
